import Mathlib

/-!
Shallow embedding of the game-master orchestrator in `src/main.py`:
the keyword router, the deterministic tool paths (dice roller, event
table), the streamed generative path, and the per-session chat history
bookkeeping of the message handler, together with theorems about them.

Randomness (the process-wide `random` source) is modelled by explicit
entropy arguments: `random.randint(1, sides)` consumes an entropy value
`g` and yields `g % sides + 1`, and `random.choice` over a pool picks
index `g % pool.length`.  The external generation service is modelled
by a `GenResult` input: the finite list of streamed fragments, or the
fragments delivered before a raised exception.
-/

namespace GameMaster

/-- ASCII lower-casing of a single character, the action of Python's
`str.lower` on the ASCII range: `A`..`Z` (codes 65..90) map 32 up. -/
def lowerChar (c : Char) : Char :=
  if 65 ≤ c.toNat ∧ c.toNat ≤ 90 then Char.ofNat (c.toNat + 32) else c

/-- Model of Python's `str.lower` (`message.content.lower()` in `main.py`),
applied characterwise. -/
def lowerStr (s : String) : String :=
  String.mk (s.toList.map lowerChar)

/-- Does the first character list start the second one? -/
def startsWithCL : List Char → List Char → Bool
  | [], _ => true
  | _ :: _, [] => false
  | a :: as, b :: bs => a == b && startsWithCL as bs

/-- Contiguous-sublist test on character lists. -/
def containsSub (needle : List Char) : List Char → Bool
  | [] => startsWithCL needle []
  | c :: t => startsWithCL needle (c :: t) || containsSub needle t

/-- Model of Python's `needle in haystack` on strings: substring
containment, as used by the keyword router in `main.py`. -/
def pyIn (needle haystack : String) : Bool :=
  containsSub needle.toList haystack.toList

/-- The default value of the `sides` parameter of `roll_dice` in `main.py`. -/
def defaultSides : Nat := 20

/-- `roll_dice` from `main.py`: `random.randint(1, sides)`, with the random
source modelled by the entropy argument `g`. -/
def roll_dice (g : Nat) (sides : Nat) : Nat :=
  g % sides + 1

/-- The `"forest"` pool of the `events` table in `generate_event`. -/
def forestEvents : List String :=
  ["You hear rustling in the bushes. A goblin appears!",
   "You find an ancient tree with glowing runes.",
   "A traveling merchant offers you a mysterious potion."]

/-- The `"dungeon"` pool of the `events` table in `generate_event`. -/
def dungeonEvents : List String :=
  ["A trap triggers beneath your feet!",
   "A skeleton warrior blocks your path.",
   "You discover a chest filled with gold... or is it a mimic?"]

/-- The `"village"` pool of the `events` table in `generate_event`. -/
def villageEvents : List String :=
  ["A child runs up to you, asking for help.",
   "The blacksmith offers to upgrade your weapon.",
   "You overhear talk of a dragon nearby."]

/-- The fallback pool of `generate_event`: `events.get` returns it for any
key not in the table. -/
def fallbackEvents : List String :=
  ["Nothing unusual happens..."]

/-- The candidate pool `events.get(context.lower(), fallback)` selected by
`generate_event` in `main.py`. -/
def eventPool (context : String) : List String :=
  if lowerStr context = "forest" then forestEvents
  else if lowerStr context = "dungeon" then dungeonEvents
  else if lowerStr context = "village" then villageEvents
  else fallbackEvents

/-- `generate_event` from `main.py`: `random.choice` over the pool for the
lower-cased key, with the random source modelled by the entropy `g`. -/
def generate_event (context : String) (g : Nat) : String :=
  (eventPool context).getD (g % (eventPool context).length) ""

/-- Roles of the chat-history entries built in `main` (`"user"` /
`"assistant"`). -/
inductive Role where
  | user
  | assistant
deriving DecidableEq

/-- One entry of the `chat_history` list: `{"role": ..., "content": ...}`. -/
structure Turn where
  role : Role
  content : String
deriving DecidableEq

/-- The three agents of `main.py`: `NarratorAgent`, `MonsterAgent`
(combat), `ItemAgent`. -/
inductive Specialist where
  | narrator
  | monster
  | item
deriving DecidableEq

/-- The combat keyword list of the handoff logic in `main` (line 90). -/
def combatKeywords : List String :=
  ["attack", "defend", "monster", "fight", "battle"]

/-- The item keyword list of the handoff logic in `main` (line 92). -/
def itemKeywords : List String :=
  ["item", "chest", "reward", "loot", "inventory"]

/-- `any(word in user_input for word in words)` from `main`. -/
def hasAny (words : List String) (user_input : String) : Bool :=
  words.any (fun w => pyIn w user_input)

/-- The agent-handoff decision of `main` on the already lower-cased
message (`user_input`): combat keywords first, then item keywords,
else the narrator. -/
def selectAgent (user_input : String) : Specialist :=
  if hasAny combatKeywords user_input then Specialist.monster
  else if hasAny itemKeywords user_input then Specialist.item
  else Specialist.narrator

/-- The complete routing step of `main`: lower-case the message, then
select the agent by keywords. -/
def routeAgent (message : String) : Specialist :=
  selectAgent (lowerStr message)

/-- The location scan list of the manual `ItemAgent` tool trigger
(line 106 of `main.py`). -/
def areas : List String :=
  ["forest", "dungeon", "village"]

/-- The `for area in [...]: if area in user_input: context = area; break`
loop of `main`: first listed area contained in the message, if any. -/
def findArea (user_input : String) : Option String :=
  areas.find? (fun a => pyIn a user_input)

/-- Outcome of one consumption of the external generation stream: either
the finite list of fragments of a normally terminating stream, or the
fragments delivered before an exception with message `message`. -/
inductive GenResult where
  | ok (fragments : List String)
  | err (fragments : List String) (message : String)
deriving DecidableEq

/-- Result of one run of the `main` message handler: the session's
`chat_history` after the handler (`persisted`), the final content of the
outbound `msg` (`display`), whether `Runner.run_streamed` was invoked
(`usedGen`), and whether the `except` branch ran (`failed`). -/
structure HandlerOut where
  persisted : List Turn
  display : String
  usedGen : Bool
  failed : Bool
deriving DecidableEq

/-- The fixed prefix of the error message written by the `except` branch
of `main`: `f"❌ Error: {str(e)}"`. -/
def errorPrefix : String := "❌ Error: "

/-- The dice-roll outcome classification of the `MonsterAgent` branch of
`main` (line 121). -/
def combatOutcome (roll : Nat) : String :=
  if roll > 15 then "🗡️ Critical Hit!"
  else if roll < 5 then "💢 Weak strike..."
  else "⚔️ You strike the enemy."

/-- The full text written by the `MonsterAgent` branch:
`f"You rolled a {roll}.\n{outcome}"`. -/
def combatText (roll : Nat) : String :=
  "You rolled a " ++ toString roll ++ ".\n" ++ combatOutcome roll

/-- The generative path of `main`: stream the fragments into the message
buffer and append the result to the history; on an exception, overwrite
the buffer with the formatted error and leave the history un-appended.
`stored` is the session list before the handler (needed because, on
failure, the user entry survives only through in-place mutation of a
non-empty stored list: `history = ... or []` aliases the stored list
exactly when it is non-empty, and the `except` branch never calls
`cl.user_session.set`). -/
def runGenerative (stored history : List Turn) (gen : GenResult) : HandlerOut :=
  match gen with
  | GenResult.ok fragments =>
      let text := String.join fragments
      { persisted := history ++ [⟨Role.assistant, text⟩], display := text,
        usedGen := true, failed := false }
  | GenResult.err _ message =>
      { persisted := if stored.isEmpty then stored else history,
        display := errorPrefix ++ message,
        usedGen := true, failed := true }

/-- The `main` message handler of `main.py` as a function of the stored
session history, the incoming message content, the dice and event-table
entropies, and the generation-stream outcome. -/
def mainStep (stored : List Turn) (content : String) (diceG eventG : Nat)
    (gen : GenResult) : HandlerOut :=
  let history := stored ++ [⟨Role.user, content⟩]
  let user_input := lowerStr content
  match selectAgent user_input with
  | Specialist.item =>
      match findArea user_input with
      | some area =>
          let text := "🎁 You discover:\n\n" ++ generate_event area eventG
          { persisted := history ++ [⟨Role.assistant, text⟩], display := text,
            usedGen := false, failed := false }
      | none => runGenerative stored history gen
  | Specialist.monster =>
      let text := combatText (roll_dice diceG defaultSides)
      { persisted := history ++ [⟨Role.assistant, text⟩], display := text,
        usedGen := false, failed := false }
  | Specialist.narrator => runGenerative stored history gen

/-- The fixed welcome text sent by the `on_chat_start` handler. -/
def welcomeText : String :=
  "🧙 Welcome, adventurer! Your quest begins now...\n\nTell me what you\x27d like to do — explore a forest, enter a dungeon, or visit a village?"

/-- The `on_chat_start` handler: an empty chat history and the fixed
welcome message. -/
def startSession : List Turn × String :=
  ([], welcomeText)

/-- The per-message inputs of one handler run: the message content and
the nondeterministic inputs consumed during the turn. -/
structure TurnInput where
  content : String
  diceG : Nat
  eventG : Nat
  gen : GenResult
deriving DecidableEq

/-- One session step: run the handler and keep the persisted history. -/
def sessionStep (stored : List Turn) (i : TurnInput) : List Turn :=
  (mainStep stored i.content i.diceG i.eventG i.gen).persisted

/-- A whole session after `on_chat_start`: fold the handler over the
successive player messages, starting from the empty history. -/
def runSession (inputs : List TurnInput) : List Turn :=
  inputs.foldl sessionStep []

theorem toNat_ofNat_valid {n : Nat} (h : n.isValidChar) : (Char.ofNat n).toNat = n := by
  simp [Char.ofNat, h, Char.ofNatAux, Char.toNat, UInt32.toNat, BitVec.toNat_ofNatLt]

theorem lowerChar_idem (c : Char) : lowerChar (lowerChar c) = lowerChar c := by
  unfold lowerChar
  by_cases h : 65 ≤ c.toNat ∧ c.toNat ≤ 90
  · rw [if_pos h]
    have hv : (c.toNat + 32).isValidChar := Or.inl (by omega)
    rw [if_neg]
    rw [toNat_ofNat_valid hv]
    omega
  · rw [if_neg h, if_neg h]

theorem lowerStr_idem (s : String) : lowerStr (lowerStr s) = lowerStr s := by
  unfold lowerStr
  simp [String.toList, List.map_map, Function.comp_def, lowerChar_idem]

theorem mainStep_monster {stored : List Turn} {content : String} {diceG eventG : Nat}
    {gen : GenResult} (h : selectAgent (lowerStr content) = Specialist.monster) :
    mainStep stored content diceG eventG gen =
      { persisted := stored ++ [⟨Role.user, content⟩,
          ⟨Role.assistant, combatText (roll_dice diceG defaultSides)⟩],
        display := combatText (roll_dice diceG defaultSides),
        usedGen := false, failed := false } := by
  simp [mainStep, h]

theorem mainStep_item_some {stored : List Turn} {content : String} {diceG eventG : Nat}
    {gen : GenResult} {area : String}
    (h1 : selectAgent (lowerStr content) = Specialist.item)
    (h2 : findArea (lowerStr content) = some area) :
    mainStep stored content diceG eventG gen =
      { persisted := stored ++ [⟨Role.user, content⟩,
          ⟨Role.assistant, "🎁 You discover:\n\n" ++ generate_event area eventG⟩],
        display := "🎁 You discover:\n\n" ++ generate_event area eventG,
        usedGen := false, failed := false } := by
  simp [mainStep, h1, h2]

theorem mainStep_item_none {stored : List Turn} {content : String} {diceG eventG : Nat}
    {gen : GenResult}
    (h1 : selectAgent (lowerStr content) = Specialist.item)
    (h2 : findArea (lowerStr content) = none) :
    mainStep stored content diceG eventG gen =
      runGenerative stored (stored ++ [⟨Role.user, content⟩]) gen := by
  simp [mainStep, h1, h2]

theorem mainStep_narrator {stored : List Turn} {content : String} {diceG eventG : Nat}
    {gen : GenResult} (h : selectAgent (lowerStr content) = Specialist.narrator) :
    mainStep stored content diceG eventG gen =
      runGenerative stored (stored ++ [⟨Role.user, content⟩]) gen := by
  simp [mainStep, h]

theorem runGenerative_ok {stored history : List Turn} {fragments : List String} :
    runGenerative stored history (GenResult.ok fragments) =
      { persisted := history ++ [⟨Role.assistant, String.join fragments⟩],
        display := String.join fragments, usedGen := true, failed := false } := by
  simp [runGenerative]

theorem runGenerative_err {stored history : List Turn} {fragments : List String}
    {message : String} :
    runGenerative stored history (GenResult.err fragments message) =
      { persisted := if stored.isEmpty then stored else history,
        display := errorPrefix ++ message, usedGen := true, failed := true } := by
  simp [runGenerative]

theorem mainStep_success_persisted (stored : List Turn) (content : String)
    (diceG eventG : Nat) (gen : GenResult)
    (h : (mainStep stored content diceG eventG gen).failed = false) :
    (mainStep stored content diceG eventG gen).persisted =
      stored ++ [⟨Role.user, content⟩,
        ⟨Role.assistant, (mainStep stored content diceG eventG gen).display⟩] := by
  cases hsel : selectAgent (lowerStr content) with
  | monster => rw [mainStep_monster hsel]
  | item =>
      cases hfa : findArea (lowerStr content) with
      | some area => rw [mainStep_item_some hsel hfa]
      | none =>
          rw [mainStep_item_none hsel hfa] at h ⊢
          cases gen with
          | ok fragments => rw [runGenerative_ok]; simp
          | err fragments message => rw [runGenerative_err] at h; simp at h
  | narrator =>
      rw [mainStep_narrator hsel] at h ⊢
      cases gen with
      | ok fragments => rw [runGenerative_ok]; simp
      | err fragments message => rw [runGenerative_err] at h; simp at h

/-- C1: Routing is total and deterministic under the keyword policy: the
message is lower-cased and exactly one specialist is selected — Combat if
the lowercased message contains any combat keyword, else Item if it
contains any item keyword, else Narrator; combat keywords are checked
first, so a message with both kinds routes to Combat; and the three
example messages route to Combat, Item and Narrator respectively. -/
theorem routing_keyword_policy :
    (∀ m, routeAgent m = Specialist.monster ∨ routeAgent m = Specialist.item ∨
      routeAgent m = Specialist.narrator) ∧
    (∀ m, hasAny combatKeywords (lowerStr m) = true → routeAgent m = Specialist.monster) ∧
    (∀ m, hasAny combatKeywords (lowerStr m) = false →
      hasAny itemKeywords (lowerStr m) = true → routeAgent m = Specialist.item) ∧
    (∀ m, hasAny combatKeywords (lowerStr m) = false →
      hasAny itemKeywords (lowerStr m) = false → routeAgent m = Specialist.narrator) ∧
    routeAgent "I attack the goblin" = Specialist.monster ∧
    routeAgent "open the chest" = Specialist.item ∧
    routeAgent "I walk north" = Specialist.narrator := by
  refine ⟨?_, ?_, ?_, ?_, by decide, by decide, by decide⟩
  · intro m
    cases h1 : hasAny combatKeywords (lowerStr m) <;>
      cases h2 : hasAny itemKeywords (lowerStr m) <;>
      simp [routeAgent, selectAgent, h1, h2]
  · intro m h
    simp [routeAgent, selectAgent, h]
  · intro m h1 h2
    simp [routeAgent, selectAgent, h1, h2]
  · intro m h1 h2
    simp [routeAgent, selectAgent, h1, h2]

theorem routing_keyword_policy_witness :
    routeAgent "fight for the loot" = Specialist.monster ∧
    routeAgent "check my inventory" = Specialist.item ∧
    routeAgent "I walk west" = Specialist.narrator :=
  ⟨routing_keyword_policy.2.1 "fight for the loot" (by decide),
   routing_keyword_policy.2.2.1 "check my inventory" (by decide) (by decide),
   routing_keyword_policy.2.2.2.1 "I walk west" (by decide) (by decide)⟩

/-- C10: keyword matching is substring containment on the lowercased
message, not whole-word matching: any message containing the combat
keyword "defend" as part of a longer word routes to Combat, an item
keyword embedded in a longer word routes to Item when no combat substring
is present, and "defendant" / "battlements" / "chestnut" behave so. -/
theorem keyword_matching_is_substring :
    (∀ m, pyIn "defend" (lowerStr m) = true → routeAgent m = Specialist.monster) ∧
    (∀ m, hasAny combatKeywords (lowerStr m) = false →
      pyIn "chest" (lowerStr m) = true → routeAgent m = Specialist.item) ∧
    routeAgent "the defendant rises" = Specialist.monster ∧
    routeAgent "walking the battlements" = Specialist.monster ∧
    routeAgent "a chestnut tree" = Specialist.item := by
  refine ⟨?_, ?_, by decide, by decide, by decide⟩
  · intro m h
    have hc : hasAny combatKeywords (lowerStr m) = true :=
      List.any_eq_true.mpr ⟨"defend", by simp [combatKeywords], h⟩
    simp [routeAgent, selectAgent, hc]
  · intro m h1 h2
    have hi : hasAny itemKeywords (lowerStr m) = true :=
      List.any_eq_true.mpr ⟨"chest", by simp [itemKeywords], h2⟩
    simp [routeAgent, selectAgent, h1, hi]

theorem keyword_matching_is_substring_witness :
    routeAgent "self defendant" = Specialist.monster ∧
    routeAgent "my chestplate" = Specialist.item :=
  ⟨keyword_matching_is_substring.1 "self defendant" (by decide),
   keyword_matching_is_substring.2.1 "my chestplate" (by decide) (by decide)⟩

/-- C6: for every number of sides s ≥ 1 and every state of the random
source, roll_dice returns an integer in the inclusive range from 1 to s,
and the default number of sides is 20. -/
theorem roll_dice_range :
    (∀ g sides, 1 ≤ sides → 1 ≤ roll_dice g sides ∧ roll_dice g sides ≤ sides) ∧
    defaultSides = 20 := by
  refine ⟨?_, rfl⟩
  intro g sides hs
  unfold roll_dice
  have := Nat.mod_lt g (show 0 < sides by omega)
  omega

theorem roll_dice_range_witness :
    (1 ≤ roll_dice 13 6 ∧ roll_dice 13 6 ≤ 6) ∧ defaultSides = 20 :=
  ⟨roll_dice_range.1 13 6 (by decide), roll_dice_range.2⟩

/-- C7: event lookup is case-insensitive: for every key k and every state
of the random source, generate_event at k and at the lowercased k select
from the same candidate pool and return the same result, in particular
for "FOREST" versus "forest". -/
theorem event_lookup_case_insensitive :
    (∀ k, eventPool k = eventPool (lowerStr k)) ∧
    (∀ k g, generate_event k g = generate_event (lowerStr k) g) ∧
    eventPool "FOREST" = eventPool "forest" := by
  have hpool : ∀ k, eventPool k = eventPool (lowerStr k) := by
    intro k
    unfold eventPool
    rw [lowerStr_idem]
  exact ⟨hpool, fun k g => by unfold generate_event; rw [hpool k], hpool "FOREST"⟩

/-- C8: for every location key whose lowercasing is none of the known keys
(forest, dungeon, village) — for example "swamp" — generate_event returns
the single fixed fallback text, whatever the state of the random source. -/
theorem unknown_location_fallback :
    (∀ k g, lowerStr k ≠ "forest" → lowerStr k ≠ "dungeon" → lowerStr k ≠ "village" →
      generate_event k g = "Nothing unusual happens...") ∧
    (∀ g, generate_event "swamp" g = "Nothing unusual happens...") := by
  have hgen : ∀ k g, lowerStr k ≠ "forest" → lowerStr k ≠ "dungeon" →
      lowerStr k ≠ "village" → generate_event k g = "Nothing unusual happens..." := by
    intro k g h1 h2 h3
    unfold generate_event eventPool
    rw [if_neg h1, if_neg h2, if_neg h3]
    simp [fallbackEvents, Nat.mod_one]
  exact ⟨hgen, fun g => hgen "swamp" g (by decide) (by decide) (by decide)⟩

theorem unknown_location_fallback_witness :
    generate_event "Cave of Wonders" 9 = "Nothing unusual happens..." :=
  unknown_location_fallback.1 "Cave of Wonders" 9 (by decide) (by decide) (by decide)

/-- C2: when the Combat specialist is selected the handler synchronously
rolls with the default sides (20), classifies the roll into exactly one
tier (roll > 15 critical, roll < 5 weak, everything else — including
exactly 15 and exactly 5 — the neutral tier), formats the fixed template
with the numeric roll and the tier, and completes without any call to the
generation service. -/
theorem combat_tool_path :
    (∀ stored content diceG eventG gen, routeAgent content = Specialist.monster →
      (mainStep stored content diceG eventG gen).usedGen = false ∧
      (mainStep stored content diceG eventG gen).failed = false ∧
      (mainStep stored content diceG eventG gen).display =
        "You rolled a " ++ toString (roll_dice diceG defaultSides) ++ ".\n" ++
          combatOutcome (roll_dice diceG defaultSides)) ∧
    (∀ r, 15 < r → combatOutcome r = "🗡️ Critical Hit!") ∧
    (∀ r, r < 5 → combatOutcome r = "💢 Weak strike...") ∧
    (∀ r, 5 ≤ r → r ≤ 15 → combatOutcome r = "⚔️ You strike the enemy.") ∧
    combatOutcome 15 = "⚔️ You strike the enemy." ∧
    combatOutcome 5 = "⚔️ You strike the enemy." ∧
    defaultSides = 20 := by
  refine ⟨?_, ?_, ?_, ?_, by decide, by decide, rfl⟩
  · intro stored content diceG eventG gen h
    rw [mainStep_monster h]
    exact ⟨rfl, rfl, rfl⟩
  · intro r h
    unfold combatOutcome
    rw [if_pos h]
  · intro r h
    unfold combatOutcome
    rw [if_neg (by omega), if_pos h]
  · intro r h1 h2
    unfold combatOutcome
    rw [if_neg (by omega), if_neg (by omega)]

theorem combat_tool_path_witness :
    ((mainStep [] "I attack the goblin" 16 0 (GenResult.ok [])).usedGen = false ∧
     (mainStep [] "I attack the goblin" 16 0 (GenResult.ok [])).failed = false ∧
     (mainStep [] "I attack the goblin" 16 0 (GenResult.ok [])).display =
       "You rolled a " ++ toString (roll_dice 16 defaultSides) ++ ".\n" ++
         combatOutcome (roll_dice 16 defaultSides)) ∧
    combatOutcome 16 = "🗡️ Critical Hit!" ∧
    combatOutcome 4 = "💢 Weak strike..." ∧
    combatOutcome 10 = "⚔️ You strike the enemy." :=
  ⟨combat_tool_path.1 [] "I attack the goblin" 16 0 (GenResult.ok []) (by decide),
   combat_tool_path.2.1 16 (by decide),
   combat_tool_path.2.2.1 4 (by decide),
   combat_tool_path.2.2.2.1 10 (by decide) (by decide)⟩

/-- C5: when the Item specialist is selected, the handler scans the
lowercased message for a location key in the fixed priority order forest,
dungeon, village; if one is found it formats the fixed "you discover"
template from the event table and completes without a generative call,
appending exactly that text as the assistant entry; if none is found the
deterministic path is skipped and the generative path runs. -/
theorem item_tool_path :
    (∀ stored content diceG eventG gen area,
      routeAgent content = Specialist.item →
      findArea (lowerStr content) = some area →
      (mainStep stored content diceG eventG gen).usedGen = false ∧
      (mainStep stored content diceG eventG gen).failed = false ∧
      (mainStep stored content diceG eventG gen).display =
        "🎁 You discover:\n\n" ++ generate_event area eventG ∧
      (mainStep stored content diceG eventG gen).persisted =
        stored ++ [⟨Role.user, content⟩,
          ⟨Role.assistant, "🎁 You discover:\n\n" ++ generate_event area eventG⟩]) ∧
    (∀ stored content diceG eventG gen,
      routeAgent content = Specialist.item →
      findArea (lowerStr content) = none →
      mainStep stored content diceG eventG gen =
        runGenerative stored (stored ++ [⟨Role.user, content⟩]) gen ∧
      (mainStep stored content diceG eventG gen).usedGen = true) ∧
    (∀ ui, findArea ui =
      (if pyIn "forest" ui then some "forest"
       else if pyIn "dungeon" ui then some "dungeon"
       else if pyIn "village" ui then some "village"
       else none)) := by
  refine ⟨?_, ?_, ?_⟩
  · intro stored content diceG eventG gen area h1 h2
    rw [mainStep_item_some h1 h2]
    exact ⟨rfl, rfl, rfl, rfl⟩
  · intro stored content diceG eventG gen h1 h2
    refine ⟨mainStep_item_none h1 h2, ?_⟩
    rw [mainStep_item_none h1 h2]
    cases gen with
    | ok fragments => rw [runGenerative_ok]
    | err fragments message => rw [runGenerative_err]
  · intro ui
    cases h1 : pyIn "forest" ui <;> cases h2 : pyIn "dungeon" ui <;>
      cases h3 : pyIn "village" ui <;>
      simp [findArea, areas, List.find?, h1, h2, h3]

theorem item_tool_path_witness :
    (mainStep [] "open the chest in the forest" 0 2 (GenResult.ok [])).display =
      "🎁 You discover:\n\n" ++ generate_event "forest" 2 ∧
    (mainStep [] "show my inventory" 0 0 (GenResult.ok ["Your bag holds a rope."])).usedGen
      = true :=
  ⟨(item_tool_path.1 [] "open the chest in the forest" 0 2 (GenResult.ok [])
      "forest" (by decide) (by decide)).2.2.1,
   (item_tool_path.2.1 [] "show my inventory" 0 0
      (GenResult.ok ["Your bag holds a rope."]) (by decide) (by decide)).2⟩

/-- C9 counterexample: "explore the dungeon" contains no item keyword, so
the keyword router selects the Narrator, the deterministic item path never
runs, and the assistant response is the generative stream output, not the
"you discover" template. -/
theorem explore_dungeon_routes_to_narrator :
    routeAgent "explore the dungeon" = Specialist.narrator ∧
    (mainStep [] "explore the dungeon" 0 0
      (GenResult.ok ["An ancient door creaks open."])).usedGen = true ∧
    (mainStep [] "explore the dungeon" 0 0
      (GenResult.ok ["An ancient door creaks open."])).display =
      "An ancient door creaks open." := by
  decide

/-- C9 (amended): session start initializes an empty history and produces
the fixed welcome text; and a message that the keyword policy actually
routes to Item and that names the dungeon — such as "grab the loot in the
dungeon" — returns the literal composed "you discover" text with the
forced event-table selection, without a generative call. -/
theorem welcome_and_item_discovery :
    startSession = ([], welcomeText) ∧
    (∀ stored diceG eventG gen,
      (mainStep stored "grab the loot in the dungeon" diceG eventG gen).display =
        "🎁 You discover:\n\n" ++ generate_event "dungeon" eventG ∧
      (mainStep stored "grab the loot in the dungeon" diceG eventG gen).usedGen = false) := by
  refine ⟨rfl, ?_⟩
  intro stored diceG eventG gen
  rw [@mainStep_item_some stored "grab the loot in the dungeon" diceG eventG gen
    "dungeon" (by decide) (by decide)]
  exact ⟨rfl, rfl⟩

theorem runSession_roles (inputs : List TurnInput) :
    ∀ stored, (∀ i ∈ inputs, ∀ st,
      (mainStep st i.content i.diceG i.eventG i.gen).failed = false) →
    (inputs.foldl sessionStep stored).map Turn.role =
      stored.map Turn.role ++ (List.replicate inputs.length [Role.user, Role.assistant]).flatten := by
  induction inputs with
  | nil => intro stored _; simp
  | cons i rest ih =>
      intro stored h
      have hstep : sessionStep stored i =
          stored ++ [⟨Role.user, i.content⟩,
            ⟨Role.assistant, (mainStep stored i.content i.diceG i.eventG i.gen).display⟩] :=
        mainStep_success_persisted stored i.content i.diceG i.eventG i.gen
          (h i (List.mem_cons_self i rest) stored)
      rw [List.foldl_cons, ih (sessionStep stored i)
        (fun j hj st => h j (List.mem_cons_of_mem i hj) st), hstep]
      simp [List.replicate_succ]

/-- C3 counterexample: a player turn whose generative stream raises is
dropped silently — with an empty prior history the whole session history
stays empty (even the user entry is lost), and with a non-empty prior
history the user entry is persisted with no assistant entry before the
next turn. -/
theorem turn_pairing_cex :
    runSession [⟨"hello there", 0, 0, GenResult.err [] "boom"⟩] = [] ∧
    (mainStep [⟨Role.user, "hi"⟩, ⟨Role.assistant, "well met"⟩]
        "hello there" 0 0 (GenResult.err [] "boom")).persisted =
      [⟨Role.user, "hi"⟩, ⟨Role.assistant, "well met"⟩, ⟨Role.user, "hello there"⟩] := by
  decide

/-- C3 (amended): every successfully answered player turn appends exactly
one user entry and one assistant entry, so after N player turns each
successfully answered the conversation store holds exactly 2N entries in
strict chronological user/assistant alternation; a turn that fails in the
generative path, however, appends no assistant entry at all. -/
theorem turn_pairing_success (inputs : List TurnInput)
    (h : ∀ i ∈ inputs, ∀ stored,
      (mainStep stored i.content i.diceG i.eventG i.gen).failed = false) :
    (runSession inputs).length = 2 * inputs.length ∧
    (runSession inputs).map Turn.role =
      (List.replicate inputs.length [Role.user, Role.assistant]).flatten := by
  have hr := runSession_roles inputs [] h
  simp only [runSession, List.map_nil, List.nil_append] at hr ⊢
  refine ⟨?_, hr⟩
  have hlen := congrArg List.length hr
  simp [List.length_flatten, List.map_replicate] at hlen
  omega

theorem turn_pairing_success_witness :
    (runSession [⟨"I attack the goblin", 7, 0, GenResult.ok []⟩,
       ⟨"take the loot in the forest", 0, 1, GenResult.ok []⟩]).length = 2 * 2 :=
  (turn_pairing_success
    [⟨"I attack the goblin", 7, 0, GenResult.ok []⟩,
     ⟨"take the loot in the forest", 0, 1, GenResult.ok []⟩]
    (by
      intro i hi stored
      rcases List.mem_cons.mp hi with h1 | h2
      · rw [h1, mainStep_monster (by decide)]
      · rcases List.mem_cons.mp h2 with h3 | h4
        · rw [h3, @mainStep_item_some stored "take the loot in the forest"
            0 1 (GenResult.ok []) "forest" (by decide) (by decide)]
        · cases h4)).1

/-- C4 counterexample: a mid-stream generation failure with a non-empty
prior history leaves the store partially appended — the displayed message
carries the error marker, but the store ends with a dangling user entry
and no assistant entry for the failed turn. -/
theorem failed_turn_cex :
    (mainStep [⟨Role.user, "hi"⟩, ⟨Role.assistant, "well met"⟩]
        "tell me a story" 0 0 (GenResult.err ["Once"] "boom")).display =
      "❌ Error: boom" ∧
    (mainStep [⟨Role.user, "hi"⟩, ⟨Role.assistant, "well met"⟩]
        "tell me a story" 0 0 (GenResult.err ["Once"] "boom")).persisted =
      [⟨Role.user, "hi"⟩, ⟨Role.assistant, "well met"⟩, ⟨Role.user, "tell me a story"⟩] := by
  decide

/-- C4 (amended): when the generative stream raises, the turn ends failed
with the output buffer overwritten by the marker-prefixed formatted error
(not the raw fragments), but no assistant entry is recorded in the
conversation store: the persisted history is the prior history plus the
dangling user entry (or, when the prior history was empty, the user entry
is not persisted either), and every assistant entry of the persisted
history was already there before the turn. -/
theorem failed_turn_no_append (stored : List Turn) (content : String)
    (diceG eventG : Nat) (frags : List String) (emsg : String)
    (h : (mainStep stored content diceG eventG (GenResult.err frags emsg)).usedGen = true) :
    (mainStep stored content diceG eventG (GenResult.err frags emsg)).display =
      errorPrefix ++ emsg ∧
    (mainStep stored content diceG eventG (GenResult.err frags emsg)).failed = true ∧
    (mainStep stored content diceG eventG (GenResult.err frags emsg)).persisted =
      (if stored.isEmpty then stored else stored ++ [⟨Role.user, content⟩]) ∧
    (∀ t ∈ (mainStep stored content diceG eventG (GenResult.err frags emsg)).persisted,
      t.role = Role.assistant → t ∈ stored) := by
  have hmain : mainStep stored content diceG eventG (GenResult.err frags emsg) =
      runGenerative stored (stored ++ [⟨Role.user, content⟩]) (GenResult.err frags emsg) := by
    cases hsel : selectAgent (lowerStr content) with
    | monster => rw [mainStep_monster hsel] at h; simp at h
    | item =>
        cases hfa : findArea (lowerStr content) with
        | some area => rw [mainStep_item_some hsel hfa] at h; simp at h
        | none => exact mainStep_item_none hsel hfa
    | narrator => exact mainStep_narrator hsel
  rw [hmain, runGenerative_err]
  refine ⟨rfl, rfl, rfl, ?_⟩
  intro t ht hrole
  by_cases hs : stored.isEmpty
  · rw [if_pos hs] at ht
    exact ht
  · rw [if_neg hs] at ht
    rcases List.mem_append.mp ht with h1 | h2
    · exact h1
    · rw [List.mem_singleton.mp h2] at hrole
      cases hrole

theorem failed_turn_no_append_witness :
    (mainStep [⟨Role.user, "hi"⟩] "please continue" 0 0
        (GenResult.err ["Once upon"] "boom")).display = errorPrefix ++ "boom" :=
  (failed_turn_no_append [⟨Role.user, "hi"⟩] "please continue" 0 0
    ["Once upon"] "boom" (by decide)).1
